import Mathlib

/-!
Verification of the `ldap-integrator` charm and its vendored
`charms.glauth_k8s.v0.ldap` interface library.

The development shallowly embeds:
* the payload schema (`LdapProviderData`, pydantic-style construction and
  `model_dump` serialization) from `lib/charms/glauth_k8s/v0/ldap.py`;
* the provider/requirer role operations (`update_relations_app_data`,
  `consume_ldap_relation_data`, the relation-created and relation-broken
  handlers) over an explicit host state holding the relations, their
  application databags, the secret store and the leadership flag;
* the charm glue (`_holistic_handler`, `missing_config`) from
  `src/charm.py` and `src/utils.py`.

Python dictionaries are modelled as association lists; Python values that
can appear in those dictionaries (str, bool, list of str, None) are the
inductive `PyVal`; fallible operations return `Except String`.
-/

namespace LdapIntegrator

/-! ### Python-value model -/

/-- A Python value as it appears in the payload dictionaries exchanged by the
library: a string, a boolean, a list of strings, or `None`. -/
inductive PyVal where
  | vStr (s : String)
  | vBool (b : Bool)
  | vList (vs : List String)
  | vNone
deriving Repr, DecidableEq

/-- A Python dict with arbitrary Python values (e.g. a pydantic `model_dump`
result or a kwargs dict). -/
abbrev RawDict := List (String × PyVal)

/-- A Python dict with string values (the wire form of an application databag:
Juju stores only strings). -/
abbrev StrDict := List (String × String)

/-- Python `v.startswith(pre)` on strings, modelled on the character list
(`String.startsWith` itself does not reduce in the kernel). -/
def startswith (v pre : String) : Bool :=
  pre.data.isPrefixOf v.data

/-- Python `s.casefold()`; only ASCII strings reach it here, where casefold
is lowercasing. -/
def casefold (s : String) : String :=
  ⟨s.data.map Char.toLower⟩

/-- Python truthiness of a `PyVal`, as used by `str(v) if v else ""` and by
the walrus test `if secret_id := provider_data.get(...)`. -/
def pyTruthy : PyVal → Bool
  | .vStr s => !s.isEmpty
  | .vBool b => b
  | .vList vs => !vs.isEmpty
  | .vNone => false

/-- Python `str(v)` restricted to the values this code can feed it. -/
def pyStr : PyVal → String
  | .vStr s => s
  | .vBool b => if b then "True" else "False"
  | .vList vs => String.intercalate "," vs
  | .vNone => "None"

/-- Assignment `d[k] = v` on a Python dict modelled as an association list:
replace the (unique) binding of `k` if present, else append. -/
def setKey {α : Type} : List (String × α) → String → α → List (String × α)
  | [], k, v => [(k, v)]
  | p :: t, k, v => if p.1 == k then (k, v) :: t else p :: setKey t k v

/-- The dict method `old.update(upd)`: assign every binding of `upd` into
`old`, left to right. -/
def dictUpdate {α : Type} (old upd : List (String × α)) : List (String × α) :=
  upd.foldl (fun acc p => setKey acc p.1 p.2) old

/-! ### Payload schema (`lib/charms/glauth_k8s/v0/ldap.py`) -/

/-- The provider payload `LdapProviderData` (which extends
`LdapProviderBaseData` with `bind_dn`, `bind_password`,
`bind_password_secret` and `auth_method`). `auth_method` is
`Literal["simple"]` in the source; the literal constraint is enforced by
`validate_provider`. -/
structure LdapProviderData where
  url : String
  base_dn : String
  starttls : Bool
  bind_dn : String
  bind_password : String
  bind_password_secret : Option String
  auth_method : String
deriving Repr, DecidableEq

/-- The requirer payload `LdapRequirerData` (`user`, `group`). -/
structure LdapRequirerData where
  user : String
  group : String
deriving Repr, DecidableEq

/-- The field validator `validate_ldap_url`: reject any url that does not
start with `ldap://`. -/
def validate_ldap_url (v : String) : Except String String :=
  if !(startswith v "ldap://") then .error "Invalid LDAP URL scheme."
  else .ok v

/-- The before-mode field validator `deserialize_bool`: a string is turned
into a boolean by a case-insensitive comparison with `"true"`; every other
value is passed through unchanged. -/
def deserialize_bool (v : PyVal) : PyVal :=
  match v with
  | .vStr s => .vBool (casefold s == "true")
  | x => x

/-- Pydantic `StrictBool`: only an actual boolean is accepted. -/
def strictBool : PyVal → Except String Bool
  | .vBool b => .ok b
  | _ => .error "Input should be a valid boolean"

/-- Pydantic validation of a required `str` field. -/
def requiredStr (raw : RawDict) (k : String) : Except String String :=
  match List.lookup k raw with
  | some (.vStr s) => .ok s
  | some _ => .error ("Input should be a valid string: " ++ k)
  | none => .error ("Field required: " ++ k)

/-- Pydantic validation of an `Optional[str]` field with default `None`. -/
def optionalStr (raw : RawDict) (k : String) : Except String (Option String) :=
  match List.lookup k raw with
  | some (.vStr s) => .ok (some s)
  | some .vNone => .ok none
  | some _ => .error ("Input should be a valid string or None: " ++ k)
  | none => .ok none

/-- Construction `LdapProviderData(**raw)`: pydantic validation of the raw
dict against the model. Extra keys are ignored (pydantic default).
Pydantic accumulates field errors into one `ValidationError`; here the
first failing field is reported, which is equivalent for success/failure. -/
def validate_provider (raw : RawDict) : Except String LdapProviderData := do
  let url₀ ← requiredStr raw "url"
  let url ← validate_ldap_url url₀
  let base_dn ← requiredStr raw "base_dn"
  let starttls ←
    match List.lookup "starttls" raw with
    | some v => strictBool (deserialize_bool v)
    | none => Except.error "Field required: starttls"
  let bind_dn ← requiredStr raw "bind_dn"
  let bind_password ← requiredStr raw "bind_password"
  let bind_password_secret ← optionalStr raw "bind_password_secret"
  let auth_method ← requiredStr raw "auth_method"
  if auth_method == "simple" then
    .ok ⟨url, base_dn, starttls, bind_dn, bind_password, bind_password_secret, auth_method⟩
  else .error "Input should be simple: auth_method"

/-- The field serializer `serialize_bool`: `str(True) = "True"`,
`str(False) = "False"`. -/
def serialize_bool (b : Bool) : String :=
  if b then "True" else "False"

/-- The serializer `data.model_dump()` for `LdapProviderData`.
`bind_password` is declared `Field(exclude=True)` in the source, so it is
absent from the dump; `starttls` is serialized through `serialize_bool`;
`bind_password_secret` keeps its `Optional[str]` value (possibly `None`). -/
def model_dump (d : LdapProviderData) : RawDict :=
  [("url", .vStr d.url),
   ("base_dn", .vStr d.base_dn),
   ("starttls", .vStr (serialize_bool d.starttls)),
   ("bind_dn", .vStr d.bind_dn),
   ("bind_password_secret",
      match d.bind_password_secret with
      | some s => .vStr s
      | none => .vNone),
   ("auth_method", .vStr d.auth_method)]

/-- The value conversion `{k: str(v) if v else "" for k, v in data.items()}`
performed by `_update_relation_app_databag` before writing to a databag. -/
def stringifyData (raw : RawDict) : StrDict :=
  raw.map (fun p => (p.1, if pyTruthy p.2 then pyStr p.2 else ""))

/-! ### Host state (Juju model: relations, databags, secrets, leadership)

The host runtime (the `ops` framework and the Juju controller) is an
external collaborator of this repository; it is modelled here following the
boundary interfaces of the spec (channel storage access, secret operations,
the elected-writer fact, channel resolution). -/

/-- A stored secret: an opaque URI (modelled as a numeric handle rendered by
`uriString`), its stable label, its current content, and the relation ids it
has been granted to. -/
structure SecretRec where
  uri : Nat
  label : String
  content : StrDict
  grants : List Nat
deriving Repr, DecidableEq

/-- A relation (channel) with its two application databags: the one owned by
the provider application and the one owned by the requirer application. -/
structure Rel where
  id : Nat
  providerBag : StrDict
  requirerBag : StrDict
deriving Repr, DecidableEq

/-- The host-owned state visible to the charm: the relations of the `ldap`
integration, the secret store, a fresh-URI counter, and whether the current
unit is the leader (`unit.is_leader()`). -/
structure HostState where
  relations : List Rel
  secrets : List SecretRec
  nextUri : Nat
  leader : Bool
deriving Repr, DecidableEq

/-- Render a secret handle as its opaque URI string (`ops.Secret.id`). -/
def uriString (u : Nat) : String := "secret:" ++ toString u

/-- Host `model.get_secret(label=...)`: the stored secret with that label,
if any. -/
def getSecretByLabel (s : HostState) (label : String) : Option SecretRec :=
  s.secrets.find? (fun r => r.label == label)

/-- Host `model.get_secret(id=...)`: the stored secret with that URI,
if any. -/
def getSecretByUri (s : HostState) (sid : String) : Option SecretRec :=
  s.secrets.find? (fun r => uriString r.uri == sid)

/-- Modelled from the spec: the host secret operation
`create(label, content) -> handle` (`app.add_secret`), an external
collaborator interface — creates a fresh secret with the given label and
content and no grants. -/
def addSecret (s : HostState) (label : String) (content : StrDict) :
    SecretRec × HostState :=
  let r : SecretRec := ⟨s.nextUri, label, content, []⟩
  (r, { s with secrets := s.secrets ++ [r], nextUri := s.nextUri + 1 })

/-- Modelled from the spec: the host secret operation
`set_content(handle, content)` — replaces the stored content of the secret
with that handle. -/
def setSecretContent (s : HostState) (u : Nat) (content : StrDict) : HostState :=
  let f := fun (r : SecretRec) => if r.uri == u then { r with content := content } else r
  { s with secrets := s.secrets.map f }

/-- Modelled from the spec: the host secret operation
`grant(handle, channel_id)` — authorizes the relation to read the secret. -/
def grantSecret (s : HostState) (u : Nat) (relId : Nat) : HostState :=
  let f := fun (r : SecretRec) => if r.uri == u then { r with grants := r.grants ++ [relId] } else r
  { s with secrets := s.secrets.map f }

/-- Modelled from the spec: the host secret operation
`remove_all_revisions(handle)` — irreversibly destroys the secret. -/
def removeSecretRevisions (s : HostState) (u : Nat) : HostState :=
  { s with secrets := s.secrets.filter (fun r => !(r.uri == u)) }

/-- Which half of a relation's storage a write targets: each role only ever
writes its own application databag. -/
inductive BagScope where
  | provider
  | requirer
deriving Repr, DecidableEq

/-- Read one half of a relation's storage. -/
def readBag (r : Rel) (scope : BagScope) : StrDict :=
  match scope with
  | .provider => r.providerBag
  | .requirer => r.requirerBag

/-- Replace one half of a relation's storage. -/
def writeBag (r : Rel) (scope : BagScope) (bag : StrDict) : Rel :=
  match scope with
  | .provider => { r with providerBag := bag }
  | .requirer => { r with requirerBag := bag }

/-! ### Library operations (`lib/charms/glauth_k8s/v0/ldap.py`) -/

/-- The template `BIND_ACCOUNT_SECRET_LABEL_TEMPLATE =
Template("relation-$relation_id-bind-account-secret")` applied to a relation
id. -/
def BIND_ACCOUNT_SECRET_LABEL_TEMPLATE (relation_id : Nat) : String :=
  "relation-" ++ toString relation_id ++ "-bind-account-secret"

/-- The classmethod `Secret.load(charm, label, content=...)`: fetch the
secret by label; on `SecretNotFoundError`, create it with the given content
(`content.getD []` models passing `content=None` through to the host
create operation). -/
def Secret.load (s : HostState) (label : String) (content : Option StrDict) :
    SecretRec × HostState :=
  match getSecretByLabel s label with
  | some r => (r, s)
  | none => addSecret s label (content.getD [])

/-- The classmethod `Secret.create_or_update(charm, label, content)`: fetch
the secret by label and overwrite its content; on `SecretNotFoundError`,
create it with the content. -/
def Secret.create_or_update (s : HostState) (label : String) (content : StrDict) :
    SecretRec × HostState :=
  match getSecretByLabel s label with
  | some r => ({ r with content := content }, setSecretContent s r.uri content)
  | none => addSecret s label content

/-- The `@leader_unit`-decorated helper `_update_relation_app_databag`:
a no-op unless the unit is the leader; a no-op when the relation is `None`;
otherwise stringifies the values and merges them into the calling
application's own databag of that relation via dict `update`. -/
def update_relation_app_databag (s : HostState) (scope : BagScope)
    (relId : Option Nat) (data : RawDict) : HostState :=
  if !s.leader then s
  else
    match relId with
    | none => s
    | some rid =>
      let strData := stringifyData data
      { s with relations := s.relations.map (fun r =>
          if r.id == rid then writeBag r scope (dictUpdate (readBag r scope) strData)
          else r) }

/-- The provider API `update_relations_app_data(data, relation_id=None)` for
an `LdapProviderData` payload. Returns the (possibly mutated) payload
together with the new host state, or the uncaught Python exception.

Faithful to the source: early return when the integration has no relations;
when a relation id is given (and the payload carries credentials), filter
the relations to that id, upsert the bind-account secret under the
deterministic label, grant it to `relations[0]` (an `IndexError` when the
filter produced an empty list), set the payload's `bind_password_secret`
field to the secret's URI, and finally write the stringified `model_dump`
of the payload to the provider databag of every relation in the (possibly
filtered) list through the leader-gated helper. -/
def update_relations_app_data (s : HostState) (data : LdapProviderData)
    (relation_id : Option Nat) : Except String (LdapProviderData × HostState) :=
  if s.relations.isEmpty then .ok (data, s)
  else
    match relation_id with
    | some rid =>
      let filtered := s.relations.filter (fun r => r.id == rid)
      let upsert := Secret.create_or_update s (BIND_ACCOUNT_SECRET_LABEL_TEMPLATE rid)
        [("password", data.bind_password)]
      match filtered with
      | [] => .error "IndexError: list index out of range"
      | r₀ :: _ =>
        let s₂ := grantSecret upsert.2 upsert.1.uri r₀.id
        let data₂ := { data with bind_password_secret := some (uriString upsert.1.uri) }
        let s₃ := filtered.foldl
          (fun acc r => update_relation_app_databag acc .provider (some r.id) (model_dump data₂))
          s₂
        .ok (data₂, s₃)
    | none =>
      let s₂ := s.relations.foldl
        (fun acc r => update_relation_app_databag acc .provider (some r.id) (model_dump data))
        s
      .ok (data, s₂)

/-- The requirer handler `_on_ldap_relation_created`: write the configured
identity (or the fallback `{user: app name, group: model name}`) to the
requirer's own databag of the created relation, through the leader-gated
helper. -/
def on_ldap_relation_created (s : HostState) (relId : Nat)
    (cfg : Option LdapRequirerData) (appName modelName : String) : HostState :=
  let user := match cfg with | some d => d.user | none => appName
  let group := match cfg with | some d => d.group | none => modelName
  update_relation_app_databag s .requirer (some relId)
    [("user", .vStr user), ("group", .vStr group)]

/-- The provider handler `_on_relation_broken` (decorated `@leader_unit`):
load the secret by the channel's deterministic label (creating it when
absent, since `Secret.load` falls back to `add_secret`) and remove all its
revisions. -/
def on_relation_broken (s : HostState) (relId : Nat) : HostState :=
  if !s.leader then s
  else
    let loaded := Secret.load s (BIND_ACCOUNT_SECRET_LABEL_TEMPLATE relId) none
    removeSecretRevisions loaded.2 loaded.1.uri

/-- Modelled from the spec: host channel resolution
`model.get_relation(name, relation_id)` — the `ops` runtime is an external
collaborator not vendored under `src/`; per the spec's requirer contract,
`fetch` "resolves a channel by id (or the sole channel if only one exists,
ambiguous/absent otherwise → None)". -/
def get_relation (s : HostState) (relation_id : Option Nat) : Option Rel :=
  match relation_id with
  | some rid => s.relations.find? (fun r => r.id == rid)
  | none =>
    match s.relations with
    | [r] => some r
    | _ => none

/-- The tail of `consume_ldap_relation_data`:
`return LdapProviderData(**provider_data) if provider_data else None`. -/
def finishConsume (pd : RawDict) : Except String (Option LdapProviderData) :=
  if pd.isEmpty then .ok none
  else (validate_provider pd).map some

/-- The requirer API `consume_ldap_relation_data(relation_id=None)`: resolve
the relation (`None` when absent), copy the provider's databag, and when a
truthy `bind_password_secret` entry is present, dereference the secret by
URI and assign its `password` content entry into the dict under
`bind_password`; finally construct `LdapProviderData` from the dict (or
return `None` for an empty dict). -/
def consume_ldap_relation_data (s : HostState) (relation_id : Option Nat) :
    Except String (Option LdapProviderData) :=
  match get_relation s relation_id with
  | none => .ok none
  | some r =>
    let provider_data : RawDict := r.providerBag.map (fun p => (p.1, PyVal.vStr p.2))
    match List.lookup "bind_password_secret" provider_data with
    | some (PyVal.vStr sid) =>
      if sid.isEmpty then finishConsume provider_data
      else
        match getSecretByUri s sid with
        | none => .error "SecretNotFoundError"
        | some secret =>
          let pw : PyVal :=
            match List.lookup "password" secret.content with
            | some w => .vStr w
            | none => .vNone
          finishConsume (setKey provider_data "bind_password" pw)
    | _ => finishConsume provider_data

/-! ### Charm glue (`src/charm.py`, `src/utils.py`) -/

/-- The operator-supplied configuration as read by `self.config.get(key)`:
an unset key reads as `None`. The `starttls` option is boolean-typed in the
charm configuration; every other option is a string. -/
structure CharmConfig where
  urls : Option String
  base_dn : Option String
  starttls : Option Bool
  bind_dn : Option String
  bind_password : Option String
  auth_method : Option String
deriving Repr, DecidableEq

/-- Python truthiness of an optional string config value. -/
def truthyS : Option String → Bool
  | some s => !s.isEmpty
  | none => false

/-- Python truthiness of an optional boolean config value. -/
def truthyB : Option Bool → Bool
  | some b => b
  | none => false

/-- The helper `missing_config`: the required keys whose configured value is
falsy (the source builds a set comprehension over
`{"urls", "base_dn", "starttls", "bind_dn", "bind_password"}`; it is
modelled as a list in declaration order). -/
def missing_config (c : CharmConfig) : List String :=
  (if truthyS c.urls then [] else ["urls"])
    ++ (if truthyS c.base_dn then [] else ["base_dn"])
    ++ (if truthyB c.starttls then [] else ["starttls"])
    ++ (if truthyS c.bind_dn then [] else ["bind_dn"])
    ++ (if truthyS c.bind_password then [] else ["bind_password"])

/-- The helper `config_ready`: no required key is missing. -/
def config_ready (c : CharmConfig) : Bool :=
  (missing_config c).isEmpty

/-- Lift an optional-string config read to the Python value it passes as a
keyword argument. -/
def toPy : Option String → PyVal
  | some s => .vStr s
  | none => .vNone

/-- Lift an optional-boolean config read likewise. -/
def toPyB : Option Bool → PyVal
  | some b => .vBool b
  | none => .vNone

/-- The keyword arguments of the `LdapProviderData(...)` construction in
`_holistic_handler`: note the first keyword is `urls` (a list produced by
`self.config.get("urls").split(",")`) — the vendored model has no such
field, and no `url` keyword is passed. -/
def holisticKwargs (c : CharmConfig) : RawDict :=
  [("urls", .vList (((c.urls).getD "").splitOn ",")),
   ("base_dn", toPy c.base_dn),
   ("starttls", toPyB c.starttls),
   ("bind_dn", toPy c.bind_dn),
   ("bind_password", toPy c.bind_password),
   ("auth_method", toPy c.auth_method)]

/-- The charm's `_holistic_handler`: return early when the `ldap`
integration has no relations or the configuration is incomplete; otherwise
construct `LdapProviderData` from the configuration (pydantic validation of
the keyword arguments) and publish it to the first relation of the
integration. A pydantic `ValidationError` raised by the construction
propagates, as does any exception from `update_relations_app_data`. -/
def holistic_handler (c : CharmConfig) (s : HostState) : Except String HostState :=
  if s.relations.isEmpty then .ok s
  else if !(config_ready c) then .ok s
  else
    match s.relations with
    | [] => .ok s
    | r₀ :: _ =>
      match validate_provider (holisticKwargs c) with
      | .error e => .error e
      | .ok data => (update_relations_app_data s data (some r₀.id)).map (fun p => p.2)

/-! ### Dictionary lemmas -/

theorem lookup_setKey_ne {α : Type} (l : List (String × α)) (k k₂ : String) (v : α)
    (h : k₂ ≠ k) : List.lookup k₂ (setKey l k v) = List.lookup k₂ l := by
  induction l with
  | nil =>
    simp only [setKey, List.lookup]
    rw [show (k₂ == k) = false from beq_false_of_ne h]
  | cons p t ih =>
    by_cases hp : p.1 == k
    · have hpk : p.1 = k := eq_of_beq hp
      simp only [setKey, hp, if_true, List.lookup]
      rw [show (k₂ == k) = false from beq_false_of_ne h,
        show (k₂ == p.1) = false from beq_false_of_ne (hpk ▸ h)]
    · simp only [setKey, hp, if_false, List.lookup, Bool.false_eq_true]
      by_cases hq : k₂ == p.1
      · simp [hq]
      · simp only [hq]
        exact ih

theorem lookup_dictUpdate_notin {α : Type} (upd old : List (String × α)) (k : String)
    (h : ∀ p ∈ upd, p.1 ≠ k) : List.lookup k (dictUpdate old upd) = List.lookup k old := by
  induction upd generalizing old with
  | nil => rfl
  | cons p t ih =>
    have h₁ : p.1 ≠ k := h p (by simp)
    have hstep : dictUpdate old (p :: t) = dictUpdate (setKey old p.1 p.2) t := rfl
    rw [hstep, ih (setKey old p.1 p.2) (fun q hq => h q (by simp [hq])),
      lookup_setKey_ne old p.1 k p.2 (fun hk => h₁ hk.symm)]

theorem mem_of_lookup_some {α : Type} {l : List (String × α)} {k : String} {v : α}
    (h : List.lookup k l = some v) : (k, v) ∈ l := by
  induction l with
  | nil => simp [List.lookup] at h
  | cons p t ih =>
    obtain ⟨k₁, v₁⟩ := p
    rw [List.lookup] at h
    by_cases hk : k == k₁
    · rw [hk] at h
      simp only [Option.some.injEq] at h
      subst h
      rw [eq_of_beq hk]
      exact List.mem_cons_self _ _
    · rw [Bool.eq_false_iff.mpr hk] at h
      exact List.mem_cons_of_mem _ (ih h)

theorem find?_append_of_none {α : Type} (p : α → Bool) (l₁ l₂ : List α)
    (h : List.find? p l₁ = none) : List.find? p (l₁ ++ l₂) = List.find? p l₂ := by
  rw [List.find?_append, h, Option.none_or]

theorem map_eq_self_of_fixed {α : Type} (f : α → α) (l : List α)
    (h : ∀ a ∈ l, f a = a) : List.map f l = l := by
  induction l with
  | nil => rfl
  | cons a t ih =>
    simp only [List.map_cons, h a (by simp), ih (fun b hb => h b (by simp [hb]))]

/-! ### State-evolution lemmas -/

theorem databag_secrets_eq (s : HostState) (scope : BagScope) (rid : Option Nat)
    (data : RawDict) : (update_relation_app_databag s scope rid data).secrets = s.secrets := by
  unfold update_relation_app_databag
  rcases Bool.eq_false_or_eq_true s.leader with h | h <;> cases rid <;> simp [h]

theorem databag_leader_eq (s : HostState) (scope : BagScope) (rid : Option Nat)
    (data : RawDict) : (update_relation_app_databag s scope rid data).leader = s.leader := by
  unfold update_relation_app_databag
  rcases Bool.eq_false_or_eq_true s.leader with h | h <;> cases rid <;> simp [h]

theorem databag_of_not_leader (s : HostState) (scope : BagScope) (rid : Option Nat)
    (data : RawDict) (h : s.leader = false) :
    update_relation_app_databag s scope rid data = s := by
  unfold update_relation_app_databag
  simp [h]

theorem foldl_databag_secrets_eq (l : List Rel) (s : HostState) (scope : BagScope)
    (dataOf : Rel → RawDict) :
    (l.foldl (fun acc r => update_relation_app_databag acc scope (some r.id) (dataOf r))
        s).secrets = s.secrets := by
  induction l generalizing s with
  | nil => rfl
  | cons r t ih => rw [List.foldl_cons, ih, databag_secrets_eq]

theorem foldl_databag_of_not_leader (l : List Rel) (s : HostState) (scope : BagScope)
    (dataOf : Rel → RawDict) (h : s.leader = false) :
    l.foldl (fun acc r => update_relation_app_databag acc scope (some r.id) (dataOf r)) s
      = s := by
  induction l with
  | nil => rfl
  | cons r t ih => rw [List.foldl_cons, databag_of_not_leader _ _ _ _ h, ih]

theorem secret_exists_create_or_update (s : HostState) (L : String) (c : StrDict) :
    ∃ rc ∈ (Secret.create_or_update s L c).2.secrets, rc.label = L := by
  rw [Secret.create_or_update]
  cases hf : getSecretByLabel s L with
  | none => exact ⟨⟨s.nextUri, L, c, []⟩, by simp [addSecret], rfl⟩
  | some r =>
    have hf₂ : s.secrets.find? (fun x => x.label == L) = some r := hf
    have hmem : r ∈ s.secrets := List.mem_of_find?_eq_some hf₂
    have hlab := List.find?_some hf₂
    refine ⟨{ r with content := c }, ?_, eq_of_beq hlab⟩
    simp only [setSecretContent]
    have hr : ({ r with content := c } : SecretRec)
        = (fun (x : SecretRec) => if x.uri == r.uri then { x with content := c } else x) r := by
      simp
    rw [hr]
    exact List.mem_map_of_mem _ hmem

theorem secret_exists_grant (s : HostState) (u relId : Nat) (L : String)
    (h : ∃ rc ∈ s.secrets, rc.label = L) :
    ∃ rc ∈ (grantSecret s u relId).secrets, rc.label = L := by
  obtain ⟨rc, hm, hl⟩ := h
  refine ⟨if rc.uri == u then { rc with grants := rc.grants ++ [relId] } else rc, ?_, ?_⟩
  · simp only [grantSecret]
    exact List.mem_map_of_mem _ hm
  · by_cases hu : rc.uri == u <;> simp [hu, hl]

theorem create_or_update_relations (s : HostState) (L : String) (c : StrDict) :
    (Secret.create_or_update s L c).2.relations = s.relations := by
  rw [Secret.create_or_update]
  cases getSecretByLabel s L <;> rfl

theorem create_or_update_leader (s : HostState) (L : String) (c : StrDict) :
    (Secret.create_or_update s L c).2.leader = s.leader := by
  rw [Secret.create_or_update]
  cases getSecretByLabel s L <;> rfl

theorem grantSecret_relations (s : HostState) (u relId : Nat) :
    (grantSecret s u relId).relations = s.relations := rfl

theorem grantSecret_leader (s : HostState) (u relId : Nat) :
    (grantSecret s u relId).leader = s.leader := rfl

/-- Inversion of a successful `update_relations_app_data` call: either the
integration had no relations and nothing happened, or an explicit relation
id selected a non-empty filtered list and the secret-upsert publish ran, or
no id was given and the payload was broadcast to every relation. -/
theorem update_relations_app_data_ok_inv (s : HostState) (d : LdapProviderData)
    (rid : Option Nat) (out : LdapProviderData × HostState)
    (h : update_relations_app_data s d rid = .ok out) :
    (s.relations.isEmpty = true ∧ out = (d, s))
    ∨ (∃ n r₀ rest, rid = some n ∧ s.relations.isEmpty = false
        ∧ s.relations.filter (fun r => r.id == n) = r₀ :: rest
        ∧ out =
          ((fun upsert =>
            (fun d₂ => (d₂, (r₀ :: rest).foldl
                (fun acc r =>
                  update_relation_app_databag acc .provider (some r.id) (model_dump d₂))
                (grantSecret upsert.2 upsert.1.uri r₀.id)))
            { d with bind_password_secret := some (uriString upsert.1.uri) })
          (Secret.create_or_update s (BIND_ACCOUNT_SECRET_LABEL_TEMPLATE n)
            [("password", d.bind_password)])))
    ∨ (rid = none ∧ s.relations.isEmpty = false
        ∧ out = (d, s.relations.foldl
            (fun acc r =>
              update_relation_app_databag acc .provider (some r.id) (model_dump d))
            s)) := by
  rw [update_relations_app_data.eq_def] at h
  rcases Bool.eq_false_or_eq_true s.relations.isEmpty with hne | hne
  · rw [hne, if_pos rfl] at h
    simp only [Except.ok.injEq] at h
    exact Or.inl ⟨hne, h.symm⟩
  · rw [hne, if_neg Bool.false_ne_true] at h
    cases rid with
    | none =>
      right; right
      dsimp only at h
      simp only [Except.ok.injEq] at h
      exact ⟨rfl, hne, h.symm⟩
    | some n =>
      right; left
      dsimp only at h
      cases hf : s.relations.filter (fun r => r.id == n) with
      | nil => rw [hf] at h; exact absurd h (by simp)
      | cons r₀ rest =>
        rw [hf] at h
        simp only [Except.ok.injEq] at h
        exact ⟨n, r₀, rest, rfl, hne, hf, h.symm⟩

/-- The keys written by the serializer: none of them is `bind_password`. -/
theorem stringify_model_dump_keys (d : LdapProviderData) :
    ∀ p ∈ stringifyData (model_dump d), p.1 ≠ "bind_password" := by
  intro p hp
  simp only [stringifyData, model_dump, List.map_cons, List.map_nil, List.mem_cons,
    List.not_mem_nil, or_false] at hp
  rcases hp with h | h | h | h | h | h <;> subst h <;> simp

theorem no_bind_password_write (s : HostState) (rid : Nat) (d : LdapProviderData)
    (hinv : ∀ r ∈ s.relations, List.lookup "bind_password" r.providerBag = none) :
    ∀ r ∈ (update_relation_app_databag s .provider (some rid) (model_dump d)).relations,
      List.lookup "bind_password" r.providerBag = none := by
  intro r hr
  unfold update_relation_app_databag at hr
  rcases Bool.eq_false_or_eq_true s.leader with h | h
  · rw [h] at hr
    simp only [Bool.not_true, Bool.false_eq_true, if_false] at hr
    rcases List.mem_map.mp hr with ⟨r₀, hr₀, hrel⟩
    by_cases hid : r₀.id == rid
    · rw [if_pos hid] at hrel
      subst hrel
      simp only [writeBag, readBag]
      exact (lookup_dictUpdate_notin _ _ _ (stringify_model_dump_keys d)).trans (hinv r₀ hr₀)
    · rw [if_neg hid] at hrel
      subst hrel
      exact hinv r₀ hr₀
  · rw [h] at hr
    simp only [Bool.not_false, if_true] at hr
    exact hinv r hr

theorem foldl_no_bind_password (l : List Rel) (s : HostState) (d : LdapProviderData)
    (hinv : ∀ r ∈ s.relations, List.lookup "bind_password" r.providerBag = none) :
    ∀ r ∈ (l.foldl
        (fun acc rel => update_relation_app_databag acc .provider (some rel.id) (model_dump d))
        s).relations,
      List.lookup "bind_password" r.providerBag = none := by
  induction l generalizing s with
  | nil => exact hinv
  | cons a t ih =>
    rw [List.foldl_cons]
    exact ih _ (no_bind_password_write _ _ _ hinv)

/-! ### Claim theorems -/

/-- C4 counterexample: the round-trip `validate_provider(serialize(p)) == p`
fails as stated, because the serializer excludes `bind_password` while the
model requires it: at the concrete valid payload below (with
`bind_password_secret` unset), deserializing the serialized form raises a
ValidationError (`bind_password` is a required field) instead of returning
the payload. -/
theorem roundtrip_fails_as_stated :
    validate_provider
        (model_dump ⟨"ldap://host", "dc=x", true, "cn=admin", "pw", none, "simple"⟩)
      = .error "Field required: bind_password" := by
  rfl

/-- C4 (amended): for every valid provider payload `p` with
`bind_password_secret` unset, validating the serialized form with the
redacted `bind_password` value re-supplied yields `p` again — the round
trip is the identity on every field the serializer emits, and only the
write-side redaction of `bind_password` breaks the literal statement. -/
theorem roundtrip_with_bind_password_resupplied (p : LdapProviderData)
    (hurl : startswith p.url "ldap://" = true)
    (hauth : p.auth_method = "simple")
    (hsec : p.bind_password_secret = none) :
    validate_provider (setKey (model_dump p) "bind_password" (.vStr p.bind_password))
      = .ok p := by
  obtain ⟨u, b, st, bd, pw, sec, am⟩ := p
  simp only at hurl hauth hsec
  subst hauth hsec
  cases st <;>
    simp [validate_provider, model_dump, setKey, serialize_bool, requiredStr, optionalStr,
      strictBool, deserialize_bool, validate_ldap_url, hurl, List.lookup, Bind.bind,
      Except.bind] <;>
    decide

/-- Witness for the C4 amended theorem at a concrete payload. -/
theorem roundtrip_with_bind_password_resupplied_witness :
    validate_provider
        (setKey (model_dump ⟨"ldap://host", "dc=x", true, "cn=admin", "pw", none, "simple"⟩)
          "bind_password" (.vStr "pw"))
      = .ok ⟨"ldap://host", "dc=x", true, "cn=admin", "pw", none, "simple"⟩ :=
  roundtrip_with_bind_password_resupplied
    ⟨"ldap://host", "dc=x", true, "cn=admin", "pw", none, "simple"⟩ (by decide) rfl rfl

/-- C6 counterexample: the deterministic secret label for channel id 7 is
`relation-7-bind-account-secret`, not `bind-account-secret-for-7` as the
claim states. -/
theorem bind_account_label_not_as_stated :
    BIND_ACCOUNT_SECRET_LABEL_TEMPLATE 7 = "relation-7-bind-account-secret"
      ∧ BIND_ACCOUNT_SECRET_LABEL_TEMPLATE 7 ≠ "bind-account-secret-for-7" := by
  constructor
  · rfl
  · decide

/-- C6 (amended): for every channel id `n`, the label under which the
provider stores, looks up and removes channel `n`'s bind-account secret is
the deterministic string `relation-<n>-bind-account-secret`: the template
renders to exactly that string, a successful publish with channel id `n`
leaves a secret stored under it, and the broken handler removes the secret
found under it. -/
theorem bind_account_label_deterministic (n : Nat) :
    BIND_ACCOUNT_SECRET_LABEL_TEMPLATE n
        = "relation-" ++ Nat.repr n ++ "-bind-account-secret"
      ∧ (∀ (s : HostState) (d : LdapProviderData) (out : LdapProviderData × HostState),
          update_relations_app_data s d (some n) = .ok out →
          s.relations.isEmpty = false →
            ∃ rc ∈ out.2.secrets, rc.label = BIND_ACCOUNT_SECRET_LABEL_TEMPLATE n)
      ∧ (∀ (s : HostState) (rc : SecretRec), s.leader = true →
          getSecretByLabel s (BIND_ACCOUNT_SECRET_LABEL_TEMPLATE n) = some rc →
            rc ∉ (on_relation_broken s n).secrets) := by
  refine ⟨rfl, ?_, ?_⟩
  · intro s d out h hne
    rw [update_relations_app_data, hne] at h
    simp only [Bool.false_eq_true, if_false] at h
    cases hf : s.relations.filter (fun r => r.id == n) with
    | nil => rw [hf] at h; exact absurd h (by simp)
    | cons r₀ rest =>
      rw [hf] at h
      simp only [Except.ok.injEq] at h
      subst h
      rw [foldl_databag_secrets_eq]
      exact secret_exists_grant _ _ _ _ (secret_exists_create_or_update s _ _)
  · intro s rc hl hfind
    rw [on_relation_broken, hl]
    simp only [Bool.not_true, Bool.false_eq_true, if_false, Secret.load, hfind,
      removeSecretRevisions]
    intro hmem
    rcases List.mem_filter.mp hmem with ⟨-, hp⟩
    simp at hp

/-- C1: for every provider payload published via `update_relations_app_data`
(with or without a channel id), the key-value mapping written to the
provider-owned databag never contains the plaintext `bind_password` key:
the serializer excludes `bind_password` from its output for every payload,
and consequently a provider databag that does not hold the key before a
successful publish does not hold it after. -/
theorem publish_never_writes_bind_password :
    (∀ d : LdapProviderData,
        List.lookup "bind_password" (stringifyData (model_dump d)) = none)
      ∧ (∀ (s : HostState) (d : LdapProviderData) (rid : Option Nat)
            (out : LdapProviderData × HostState),
          update_relations_app_data s d rid = .ok out →
          (∀ r ∈ s.relations, List.lookup "bind_password" r.providerBag = none) →
          ∀ r ∈ out.2.relations, List.lookup "bind_password" r.providerBag = none) := by
  constructor
  · intro d
    have hk := stringify_model_dump_keys d
    cases hlook : List.lookup "bind_password" (stringifyData (model_dump d)) with
    | none => rfl
    | some v =>
      have hmem := mem_of_lookup_some hlook
      exact absurd rfl (hk _ hmem)
  · intro s d rid out h hinv
    rcases update_relations_app_data_ok_inv s d rid out h with
      ⟨-, hout⟩ | ⟨n, r₀, rest, -, -, hf, hout⟩ | ⟨-, -, hout⟩
    · subst hout
      exact hinv
    · subst hout
      refine foldl_no_bind_password _ _ _ ?_
      rw [grantSecret_relations, create_or_update_relations]
      exact hinv
    · subst hout
      exact foldl_no_bind_password _ _ _ hinv

/-- Witness for C1 at a concrete payload, state and channel id. -/
theorem publish_never_writes_bind_password_witness :
    List.lookup "bind_password"
        (stringifyData (model_dump
          ⟨"ldap://host", "dc=x", true, "cn=admin", "pw", none, "simple"⟩)) = none
      ∧ ∀ r ∈ (⟨[⟨0, [("url", "ldap://host"), ("base_dn", "dc=x"), ("starttls", "True"),
            ("bind_dn", "cn=admin"), ("bind_password_secret", "secret:0"),
            ("auth_method", "simple")], []⟩],
          [⟨0, "relation-0-bind-account-secret", [("password", "pw")], [0]⟩], 1, true⟩
            : HostState).relations,
          List.lookup "bind_password" r.providerBag = none := by
  constructor
  · exact publish_never_writes_bind_password.1
      ⟨"ldap://host", "dc=x", true, "cn=admin", "pw", none, "simple"⟩
  · exact publish_never_writes_bind_password.2
      ⟨[⟨0, [], []⟩], [], 0, true⟩
      ⟨"ldap://host", "dc=x", true, "cn=admin", "pw", none, "simple"⟩
      (some 0) _ rfl (by intro r hr; fin_cases hr; rfl)

/-- C8: provider payload validation fails with a ValidationError for every
url lacking the `ldap://` prefix — both at the field validator and through
the whole model construction — and accepts `ldap://host/path`. -/
theorem url_scheme_validation (u : String) (h : startswith u "ldap://" = false) :
    validate_ldap_url u = .error "Invalid LDAP URL scheme."
      ∧ validate_ldap_url "ldap://host/path" = .ok "ldap://host/path"
      ∧ (∀ raw : RawDict, List.lookup "url" raw = some (.vStr u) →
          validate_provider raw = .error "Invalid LDAP URL scheme.") := by
  refine ⟨by simp [validate_ldap_url, h], by rfl, ?_⟩
  intro raw hr
  simp [validate_provider, requiredStr, hr, validate_ldap_url, h, Bind.bind, Except.bind]

/-- Witness for C8 at the concrete url `http://host`. -/
theorem url_scheme_validation_witness :
    validate_ldap_url "http://host" = .error "Invalid LDAP URL scheme."
      ∧ validate_provider [("url", .vStr "http://host")]
          = .error "Invalid LDAP URL scheme." := by
  have h := url_scheme_validation "http://host" (by decide)
  exact ⟨h.1, h.2.2 [("url", .vStr "http://host")] rfl⟩

/-- Witness for the C6 amended theorem at concrete channel ids 0 and 3. -/
theorem bind_account_label_deterministic_witness :
    (∃ rc ∈ ([⟨0, "relation-0-bind-account-secret", [("password", "pw")], [0]⟩]
          : List SecretRec), rc.label = BIND_ACCOUNT_SECRET_LABEL_TEMPLATE 0)
      ∧ (⟨5, BIND_ACCOUNT_SECRET_LABEL_TEMPLATE 3, [("password", "x")], []⟩ : SecretRec)
          ∉ (on_relation_broken
              ⟨[], [⟨5, BIND_ACCOUNT_SECRET_LABEL_TEMPLATE 3, [("password", "x")], []⟩],
                6, true⟩ 3).secrets := by
  constructor
  · exact (bind_account_label_deterministic 0).2.1 ⟨[⟨0, [], []⟩], [], 0, true⟩
      ⟨"ldap://host", "dc=x", true, "cn=admin", "pw", none, "simple"⟩
      (⟨"ldap://host", "dc=x", true, "cn=admin", "pw", some "secret:0", "simple"⟩,
        ⟨[⟨0, [("url", "ldap://host"), ("base_dn", "dc=x"), ("starttls", "True"),
            ("bind_dn", "cn=admin"), ("bind_password_secret", "secret:0"),
            ("auth_method", "simple")], []⟩],
          [⟨0, "relation-0-bind-account-secret", [("password", "pw")], [0]⟩], 1, true⟩)
      (by rfl) rfl
  · exact (bind_account_label_deterministic 3).2.2 _ _ rfl rfl

/-- C3: when the unit is not the leader, a successful
`update_relations_app_data` call leaves every relation (and so every
databag) unchanged, the call still returns normally for a resolvable
channel id, and the requirer's relation-created handler is a complete
no-op. -/
theorem non_writer_performs_no_channel_writes (s : HostState) (hl : s.leader = false) :
    (∀ (d : LdapProviderData) (rid : Option Nat) (out : LdapProviderData × HostState),
        update_relations_app_data s d rid = .ok out → out.2.relations = s.relations)
      ∧ (∀ (d : LdapProviderData) (rid : Option Nat),
          (∀ n, rid = some n → ∃ r ∈ s.relations, r.id = n) →
          ∃ out, update_relations_app_data s d rid = .ok out)
      ∧ (∀ (relId : Nat) (cfg : Option LdapRequirerData) (appName modelName : String),
          on_ldap_relation_created s relId cfg appName modelName = s) := by
  refine ⟨?_, ?_, ?_⟩
  · intro d rid out h
    rcases update_relations_app_data_ok_inv s d rid out h with
      ⟨-, hout⟩ | ⟨n, r₀, rest, -, -, hf, hout⟩ | ⟨-, -, hout⟩
    · subst hout; rfl
    · subst hout
      simp only
      rw [foldl_databag_of_not_leader _ _ _ _
          (by rw [grantSecret_leader, create_or_update_leader]; exact hl),
        grantSecret_relations, create_or_update_relations]
    · subst hout
      simp only
      rw [foldl_databag_of_not_leader _ _ _ _ hl]
  · intro d rid hres
    rcases Bool.eq_false_or_eq_true s.relations.isEmpty with he | he
    · exact ⟨(d, s), by rw [update_relations_app_data.eq_def, he, if_pos rfl]⟩
    · cases rid with
      | none =>
        cases hres₂ : update_relations_app_data s d none with
        | ok out => exact ⟨out, rfl⟩
        | error e =>
          exfalso
          rw [update_relations_app_data.eq_def, he, if_neg Bool.false_ne_true] at hres₂
          dsimp only at hres₂
          exact absurd hres₂ (by simp)
      | some n =>
        obtain ⟨r, hrmem, hrid⟩ := hres n rfl
        cases hfe : s.relations.filter (fun x => x.id == n) with
        | nil =>
          exfalso
          have := List.filter_eq_nil_iff.mp hfe r hrmem
          simp [hrid] at this
        | cons r₀ rest =>
          cases hres₂ : update_relations_app_data s d (some n) with
          | ok out => exact ⟨out, rfl⟩
          | error e =>
            exfalso
            rw [update_relations_app_data.eq_def, he, if_neg Bool.false_ne_true] at hres₂
            dsimp only at hres₂
            rw [hfe] at hres₂
            exact absurd hres₂ (by simp)
  · intro relId cfg appName modelName
    unfold on_ldap_relation_created
    dsimp only
    exact databag_of_not_leader _ _ _ _ hl

/-- Witness for C3 at a concrete non-leader state. -/
theorem non_writer_performs_no_channel_writes_witness :
    (update_relations_app_data ⟨[⟨0, [], []⟩], [], 0, false⟩
        ⟨"ldap://host", "dc=x", true, "cn=admin", "pw", none, "simple"⟩ (some 0)
      = .ok (⟨"ldap://host", "dc=x", true, "cn=admin", "pw", some "secret:0", "simple"⟩,
          ⟨[⟨0, [], []⟩],
            [⟨0, "relation-0-bind-account-secret", [("password", "pw")], [0]⟩], 1, false⟩))
      ∧ (⟨[⟨0, [], []⟩],
            [⟨0, "relation-0-bind-account-secret", [("password", "pw")], [0]⟩], 1, false⟩
          : HostState).relations = [⟨0, [], []⟩]
      ∧ on_ldap_relation_created ⟨[⟨0, [], []⟩], [], 0, false⟩ 0 none "app" "model"
          = ⟨[⟨0, [], []⟩], [], 0, false⟩ := by
  have h := non_writer_performs_no_channel_writes ⟨[⟨0, [], []⟩], [], 0, false⟩ rfl
  exact ⟨by rfl,
    h.1 ⟨"ldap://host", "dc=x", true, "cn=admin", "pw", none, "simple"⟩ (some 0)
      (⟨"ldap://host", "dc=x", true, "cn=admin", "pw", some "secret:0", "simple"⟩,
        ⟨[⟨0, [], []⟩],
          [⟨0, "relation-0-bind-account-secret", [("password", "pw")], [0]⟩], 1, false⟩)
      (by rfl),
    h.2.2 0 none "app" "model"⟩

/-- C5: on the provider's broken callback (as the leader), the secret under
the channel's deterministic label is loaded and all its revisions removed;
when no secret exists under that label, the handler leaves the secret
store and the relations unchanged and raises nothing (silent no-op). -/
theorem broken_handler_secret_removal (s : HostState) (relId : Nat)
    (hl : s.leader = true) :
    (getSecretByLabel s (BIND_ACCOUNT_SECRET_LABEL_TEMPLATE relId) = none →
        (∀ r ∈ s.secrets, r.uri < s.nextUri) →
        (on_relation_broken s relId).secrets = s.secrets
          ∧ (on_relation_broken s relId).relations = s.relations)
      ∧ (∀ rc, getSecretByLabel s (BIND_ACCOUNT_SECRET_LABEL_TEMPLATE relId) = some rc →
          (on_relation_broken s relId).secrets
              = s.secrets.filter (fun r => !(r.uri == rc.uri))
            ∧ (on_relation_broken s relId).relations = s.relations) := by
  constructor
  · intro habs hwf
    unfold on_relation_broken
    rw [hl]
    simp only [Bool.not_true, Bool.false_eq_true, if_false, Secret.load, habs,
      removeSecretRevisions, addSecret]
    refine ⟨?_, trivial⟩
    rw [List.filter_append]
    have h₁ : s.secrets.filter (fun x => !(x.uri == s.nextUri)) = s.secrets :=
      List.filter_eq_self.mpr (fun a ha => by
        have hlt := hwf a ha
        simp [Nat.ne_of_lt hlt])
    rw [h₁]
    simp
  · intro rc hfind
    unfold on_relation_broken
    rw [hl]
    simp only [Bool.not_true, Bool.false_eq_true, if_false, Secret.load, hfind,
      removeSecretRevisions]
    exact ⟨trivial, trivial⟩

/-- Witness for C5: a leader state with no secret under the label (silent
no-op) and one with the secret present (removal). -/
theorem broken_handler_secret_removal_witness :
    ((on_relation_broken ⟨[], [], 5, true⟩ 3).secrets = ([] : List SecretRec)
        ∧ (on_relation_broken ⟨[], [], 5, true⟩ 3).relations = ([] : List Rel))
      ∧ (on_relation_broken
            ⟨[], [⟨0, BIND_ACCOUNT_SECRET_LABEL_TEMPLATE 3, [("password", "x")], []⟩],
              1, true⟩ 3).secrets = [] := by
  have h₁ := broken_handler_secret_removal ⟨[], [], 5, true⟩ 3 rfl
  have h₂ := broken_handler_secret_removal
    ⟨[], [⟨0, BIND_ACCOUNT_SECRET_LABEL_TEMPLATE 3, [("password", "x")], []⟩], 1, true⟩ 3 rfl
  exact ⟨h₁.1 rfl (by simp), (h₂.2 _ rfl).1⟩

/-- The state after appending a fresh secret record, as produced by
`addSecret`; proof-side abbreviation. -/
def appendSecret (s : HostState) (L : String) (c : StrDict) : HostState :=
  { s with secrets := s.secrets ++ [⟨s.nextUri, L, c, []⟩], nextUri := s.nextUri + 1 }

theorem setSecretContent_append_fresh (s : HostState) (L : String) (c c₂ : StrDict)
    (hwf : ∀ r ∈ s.secrets, r.uri < s.nextUri) :
    setSecretContent (appendSecret s L c) s.nextUri c₂ = appendSecret s L c₂ := by
  unfold setSecretContent appendSecret
  simp only
  congr 1
  rw [List.map_append]
  congr 1
  · exact map_eq_self_of_fixed _ _ (fun a ha => by
      have hlt := hwf a ha
      rw [if_neg]
      simp [Nat.ne_of_lt hlt])
  · simp

/-- C7: starting from a state with no secret under `label`, two consecutive
`create_or_update` calls with the same label and content leave exactly one
secret stored under that label with that content, and a third call with
different content overwrites that same secret (same URI `s.nextUri`)
rather than creating a new one. -/
theorem secret_upsert_idempotent (s : HostState) (L : String) (c c₂ : StrDict)
    (habs : getSecretByLabel s L = none)
    (hwf : ∀ r ∈ s.secrets, r.uri < s.nextUri) :
    ((Secret.create_or_update (Secret.create_or_update s L c).2 L c).2.secrets.filter
        (fun r => r.label == L) = [⟨s.nextUri, L, c, []⟩])
      ∧ ((Secret.create_or_update (Secret.create_or_update
            (Secret.create_or_update s L c).2 L c).2 L c₂).2.secrets.filter
          (fun r => r.label == L) = [⟨s.nextUri, L, c₂, []⟩]) := by
  have hall : ∀ a ∈ s.secrets, (a.label == L) = false := by
    intro a ha
    have h := List.find?_eq_none.mp habs a ha
    simpa using h
  have e₁ : (Secret.create_or_update s L c).2 = appendSecret s L c := by
    rw [Secret.create_or_update, habs]
    rfl
  have hfind : getSecretByLabel (appendSecret s L c) L = some ⟨s.nextUri, L, c, []⟩ := by
    show List.find? (fun r => r.label == L)
        (s.secrets ++ [(⟨s.nextUri, L, c, []⟩ : SecretRec)]) = _
    rw [find?_append_of_none _ _ _ habs]
    simp [List.find?]
  have e₂ : (Secret.create_or_update (appendSecret s L c) L c).2 = appendSecret s L c := by
    rw [Secret.create_or_update, hfind]
    exact setSecretContent_append_fresh s L c c hwf
  have e₃ : (Secret.create_or_update (appendSecret s L c) L c₂).2
      = appendSecret s L c₂ := by
    rw [Secret.create_or_update, hfind]
    exact setSecretContent_append_fresh s L c c₂ hwf
  have hfil : ∀ cc : StrDict,
      List.filter (fun r => r.label == L)
          (s.secrets ++ [(⟨s.nextUri, L, cc, []⟩ : SecretRec)])
        = [(⟨s.nextUri, L, cc, []⟩ : SecretRec)] := by
    intro cc
    rw [List.filter_append,
      List.filter_eq_nil_iff.mpr (fun a ha => by simp [hall a ha])]
    simp
  rw [e₁, e₂, e₃]
  exact ⟨hfil c, hfil c₂⟩

/-- Witness for C7 at a concrete label and contents. -/
theorem secret_upsert_idempotent_witness :
    ((Secret.create_or_update (Secret.create_or_update ⟨[], [], 0, true⟩ "k"
          [("password", "x")]).2 "k" [("password", "x")]).2.secrets.filter
        (fun r => r.label == "k") = [⟨0, "k", [("password", "x")], []⟩])
      ∧ ((Secret.create_or_update (Secret.create_or_update (Secret.create_or_update
            ⟨[], [], 0, true⟩ "k" [("password", "x")]).2 "k" [("password", "x")]).2 "k"
            [("password", "y")]).2.secrets.filter
          (fun r => r.label == "k") = [⟨0, "k", [("password", "y")], []⟩]) :=
  secret_upsert_idempotent ⟨[], [], 0, true⟩ "k" [("password", "x")] [("password", "y")]
    rfl (by simp)

/-- C9 (code bug): with the ldap integration present and every required
configuration value set, the holistic handler does not publish — the
`LdapProviderData(...)` construction raises a ValidationError for every
configuration, because the charm passes the keyword `urls` (a list) while
the vendored library model declares the required field `url` (a string),
so the required `url` field is always missing. -/
theorem holistic_handler_always_raises (c : CharmConfig) (s : HostState)
    (hrel : s.relations.isEmpty = false) (hcfg : config_ready c = true) :
    holistic_handler c s = .error "Field required: url" := by
  have hval : validate_provider (holisticKwargs c) = .error "Field required: url" := by
    simp [validate_provider, holisticKwargs, requiredStr, List.lookup, Bind.bind,
      Except.bind]
  rw [holistic_handler.eq_def, hrel, if_neg Bool.false_ne_true, hcfg]
  cases hrels : s.relations with
  | nil => rw [hrels] at hrel; exact absurd hrel (by simp)
  | cons r₀ t =>
    simp only [Bool.not_true, Bool.false_eq_true, if_false]
    rw [hval]

/-- Witness for C9 at the unit-test configuration values. -/
theorem holistic_handler_always_raises_witness :
    holistic_handler
        ⟨some "ldap://ldap.com/path/to/somewhere", some "dc=glauth,dc=com", some true,
          some "cn=user,ou=group,dc=glauth,dc=com", some "password", some "simple"⟩
        ⟨[⟨0, [], []⟩], [], 0, true⟩
      = .error "Field required: url" :=
  holistic_handler_always_raises _ _ rfl rfl

/-- C10: a successful publish of an `LdapProviderData` payload with an
explicit channel id present on the integration yields (by in-place mutation
in the Python source) a payload whose `bind_password_secret` field is the
created-or-updated secret's URI — that secret's content being the bind
password — while every other field is left unchanged. -/
theorem publish_mutates_bind_password_secret (s : HostState) (d : LdapProviderData)
    (rid : Nat) (out : LdapProviderData × HostState)
    (h : update_relations_app_data s d (some rid) = .ok out)
    (hmem : ∃ r ∈ s.relations, r.id = rid) :
    (out.1.bind_password_secret
        = some (uriString (Secret.create_or_update s
            (BIND_ACCOUNT_SECRET_LABEL_TEMPLATE rid)
            [("password", d.bind_password)]).1.uri)
      ∧ (Secret.create_or_update s (BIND_ACCOUNT_SECRET_LABEL_TEMPLATE rid)
          [("password", d.bind_password)]).1.content = [("password", d.bind_password)])
      ∧ out.1.url = d.url ∧ out.1.base_dn = d.base_dn ∧ out.1.starttls = d.starttls
      ∧ out.1.bind_dn = d.bind_dn ∧ out.1.bind_password = d.bind_password
      ∧ out.1.auth_method = d.auth_method := by
  obtain ⟨r, hr, hrid⟩ := hmem
  rcases update_relations_app_data_ok_inv s d (some rid) out h with
    ⟨hemp, -⟩ | ⟨n, r₀, rest, hn, -, hf, hout⟩ | ⟨hnone, -, -⟩
  · exfalso
    rw [List.isEmpty_iff] at hemp
    rw [hemp] at hr
    exact List.not_mem_nil r hr
  · injection hn with hn₂
    subst hn₂
    subst hout
    refine ⟨⟨rfl, ?_⟩, rfl, rfl, rfl, rfl, rfl, rfl⟩
    rw [Secret.create_or_update]
    cases getSecretByLabel s (BIND_ACCOUNT_SECRET_LABEL_TEMPLATE rid) <;> rfl
  · exact absurd hnone (by simp)

/-- Witness for C10 at a concrete payload, state and channel id. -/
theorem publish_mutates_bind_password_secret_witness :
    (⟨"ldap://host", "dc=x", true, "cn=admin", "pw", some "secret:0", "simple"⟩
        : LdapProviderData).bind_password_secret
      = some (uriString (Secret.create_or_update ⟨[⟨0, [], []⟩], [], 0, true⟩
          (BIND_ACCOUNT_SECRET_LABEL_TEMPLATE 0) [("password", "pw")]).1.uri) :=
  ((publish_mutates_bind_password_secret ⟨[⟨0, [], []⟩], [], 0, true⟩
    ⟨"ldap://host", "dc=x", true, "cn=admin", "pw", none, "simple"⟩ 0
    (⟨"ldap://host", "dc=x", true, "cn=admin", "pw", some "secret:0", "simple"⟩,
      ⟨[⟨0, [("url", "ldap://host"), ("base_dn", "dc=x"), ("starttls", "True"),
          ("bind_dn", "cn=admin"), ("bind_password_secret", "secret:0"),
          ("auth_method", "simple")], []⟩],
        [⟨0, "relation-0-bind-account-secret", [("password", "pw")], [0]⟩], 1, true⟩)
    (by rfl) ⟨⟨0, [], []⟩, by simp, rfl⟩).1).1

/-- C2 counterexample: at a state whose sole relation's provider databag
holds a secret reference, `consume_ldap_relation_data` does dereference the
secret into `bind_password`, but the returned payload still contains the
secret-reference field (`bind_password_secret = some "secret:0"`),
contradicting the claim that the fetched result never contains it. -/
theorem consume_retains_secret_reference :
    consume_ldap_relation_data
        ⟨[⟨0, [("url", "ldap://host"), ("base_dn", "dc=x"), ("starttls", "True"),
            ("bind_dn", "cn=admin"), ("bind_password_secret", "secret:0"),
            ("auth_method", "simple")], []⟩],
          [⟨0, "relation-0-bind-account-secret", [("password", "secret1")], [0]⟩], 1, true⟩
        none
      = .ok (some ⟨"ldap://host", "dc=x", true, "cn=admin", "secret1",
          some "secret:0", "simple"⟩) := by
  rfl

/-- C2 (amended): fetch returns `None` when the channel is absent or
ambiguous or its provider storage is empty; when the storage is non-empty
with a truthy secret reference, the returned payload carries the
dereferenced plaintext `bind_password` — but it also retains the
`bind_password_secret` reference field rather than omitting it. -/
theorem consume_fetch_behaviour :
    (∀ s : HostState, s.relations = [] → consume_ldap_relation_data s none = .ok none)
      ∧ (∀ (s : HostState) (r₁ r₂ : Rel) (rest : List Rel),
          s.relations = r₁ :: r₂ :: rest → consume_ldap_relation_data s none = .ok none)
      ∧ (∀ (s : HostState) (rid : Nat), s.relations.find? (fun r => r.id == rid) = none →
          consume_ldap_relation_data s (some rid) = .ok none)
      ∧ (∀ (s : HostState) (r : Rel) (rid : Option Nat), get_relation s rid = some r →
          r.providerBag = [] → consume_ldap_relation_data s rid = .ok none)
      ∧ (∀ (s : HostState) (r : Rel) (rid : Option Nat) (u b st bd sid : String)
            (rc : SecretRec) (pw : String),
          get_relation s rid = some r →
          r.providerBag = [("url", u), ("base_dn", b), ("starttls", st), ("bind_dn", bd),
            ("bind_password_secret", sid), ("auth_method", "simple")] →
          sid.isEmpty = false →
          getSecretByUri s sid = some rc →
          List.lookup "password" rc.content = some pw →
          startswith u "ldap://" = true →
          consume_ldap_relation_data s rid
            = .ok (some ⟨u, b, casefold st == "true", bd, pw, some sid, "simple"⟩)) := by
  refine ⟨?_, ?_, ?_, ?_, ?_⟩
  · intro s h
    rw [consume_ldap_relation_data.eq_def, get_relation, h]
  · intro s r₁ r₂ rest h
    rw [consume_ldap_relation_data.eq_def, get_relation, h]
  · intro s rid h
    rw [consume_ldap_relation_data.eq_def, get_relation, h]
  · intro s r rid hget hbag
    rw [consume_ldap_relation_data.eq_def, hget]
    dsimp only
    rw [hbag]
    rfl
  · intro s r rid u b st bd sid rc pw hget hbag hsid hsec hpw hurl
    rw [consume_ldap_relation_data.eq_def, hget]
    dsimp only
    rw [hbag]
    simp only [List.map_cons, List.map_nil]
    rw [show List.lookup "bind_password_secret"
        ([("url", PyVal.vStr u), ("base_dn", PyVal.vStr b), ("starttls", PyVal.vStr st),
          ("bind_dn", PyVal.vStr bd), ("bind_password_secret", PyVal.vStr sid),
          ("auth_method", PyVal.vStr "simple")] : RawDict) = some (PyVal.vStr sid) from by
      simp [List.lookup]]
    dsimp only
    rw [hsid]
    simp only [Bool.false_eq_true, if_false]
    rw [hsec]
    dsimp only
    rw [hpw]
    dsimp only
    rw [show setKey
        ([("url", PyVal.vStr u), ("base_dn", PyVal.vStr b), ("starttls", PyVal.vStr st),
          ("bind_dn", PyVal.vStr bd), ("bind_password_secret", PyVal.vStr sid),
          ("auth_method", PyVal.vStr "simple")] : RawDict) "bind_password" (.vStr pw)
        = [("url", PyVal.vStr u), ("base_dn", PyVal.vStr b), ("starttls", PyVal.vStr st),
          ("bind_dn", PyVal.vStr bd), ("bind_password_secret", PyVal.vStr sid),
          ("auth_method", PyVal.vStr "simple"), ("bind_password", PyVal.vStr pw)] from by
      simp [setKey]]
    rw [finishConsume]
    simp only [List.isEmpty_cons, Bool.false_eq_true, if_false]
    have hv : validate_provider
        [("url", PyVal.vStr u), ("base_dn", PyVal.vStr b), ("starttls", PyVal.vStr st),
          ("bind_dn", PyVal.vStr bd), ("bind_password_secret", PyVal.vStr sid),
          ("auth_method", PyVal.vStr "simple"), ("bind_password", PyVal.vStr pw)]
        = .ok ⟨u, b, casefold st == "true", bd, pw, some sid, "simple"⟩ := by
      simp [validate_provider, requiredStr, optionalStr, strictBool, deserialize_bool,
        validate_ldap_url, hurl, List.lookup, Bind.bind, Except.bind]
    rw [hv]
    rfl

/-- Witness for the C2 amended theorem at concrete states for each branch. -/
theorem consume_fetch_behaviour_witness :
    consume_ldap_relation_data ⟨[], [], 0, true⟩ none = .ok none
      ∧ consume_ldap_relation_data ⟨[⟨0, [], []⟩, ⟨1, [], []⟩], [], 0, true⟩ none = .ok none
      ∧ consume_ldap_relation_data ⟨[⟨0, [], []⟩], [], 0, true⟩ (some 5) = .ok none
      ∧ consume_ldap_relation_data ⟨[⟨0, [], []⟩], [], 0, true⟩ (some 0) = .ok none
      ∧ consume_ldap_relation_data
          ⟨[⟨0, [("url", "ldap://host"), ("base_dn", "dc=x"), ("starttls", "True"),
              ("bind_dn", "cn=admin"), ("bind_password_secret", "secret:0"),
              ("auth_method", "simple")], []⟩],
            [⟨0, "relation-0-bind-account-secret", [("password", "secret1")], [0]⟩],
            1, true⟩ (some 0)
          = .ok (some ⟨"ldap://host", "dc=x", true, "cn=admin", "secret1",
              some "secret:0", "simple"⟩) := by
  refine ⟨consume_fetch_behaviour.1 _ rfl,
    consume_fetch_behaviour.2.1 _ _ _ _ rfl,
    consume_fetch_behaviour.2.2.1 _ 5 rfl,
    consume_fetch_behaviour.2.2.2.1 _ ⟨0, [], []⟩ (some 0) rfl rfl, ?_⟩
  exact consume_fetch_behaviour.2.2.2.2 _
    ⟨0, [("url", "ldap://host"), ("base_dn", "dc=x"), ("starttls", "True"),
      ("bind_dn", "cn=admin"), ("bind_password_secret", "secret:0"),
      ("auth_method", "simple")], []⟩ (some 0) "ldap://host" "dc=x" "True" "cn=admin"
    "secret:0" ⟨0, "relation-0-bind-account-secret", [("password", "secret1")], [0]⟩
    "secret1" rfl rfl rfl rfl rfl (by decide)

end LdapIntegrator

